import Mathlib

/-!
# Verification of the cgifurniture multi-shot consistency pipeline

Shallow embedding of the core of the `lemstudio-arttech/cgifurniture`
repository: the data model (`types.ts`), the Gemini service layer
(`services/geminiService.ts`: bounded retry and prompt composition) and the
render orchestrator (`App.tsx`, `handleRender` with its status-update
helpers).

The remote generative call and the canvas-based image downscaler are external
collaborators; they are abstracted as, respectively, an oracle
`Nat → Except JsError (Option String)` giving the outcome of each sequential
remote call of a run, and an opaque encoding function
`encode : String → Nat → String` standing for `processImage(url, maxWidth)`.
-/

namespace Cgi

/-! ## Data model (`types.ts`) -/

inductive ViewType
  | TOP | FRONT | SIDE | BACK | DETAIL
deriving DecidableEq

def ViewType.val : ViewType → String
  | .TOP => "top"
  | .FRONT => "front"
  | .SIDE => "side"
  | .BACK => "back"
  | .DETAIL => "detail"

inductive CameraAngle
  | WIDE | MEDIUM | CLOSEUP | TOP_DOWN | SIDE_PERSPECTIVE | DETAIL_MACRO
deriving DecidableEq

inductive DesignStyle
  | MODERN | MINIMAL | JAPANDI | SCANDINAVIAN | LUXURY | INDUSTRIAL | CLASSIC | CONTEMPORARY
deriving DecidableEq

def DesignStyle.val : DesignStyle → String
  | .MODERN => "Modern"
  | .MINIMAL => "Minimal"
  | .JAPANDI => "Japandi"
  | .SCANDINAVIAN => "Scandinavian"
  | .LUXURY => "Luxury"
  | .INDUSTRIAL => "Industrial"
  | .CLASSIC => "Classic"
  | .CONTEMPORARY => "Contemporary"

inductive RoomType
  | LIVING_ROOM | BEDROOM | GARDEN | FACADE | SHOWROOM | OFFICE | KITCHEN | DINING_ROOM | LOBBY
deriving DecidableEq

def RoomType.val : RoomType → String
  | .LIVING_ROOM => "Living Room"
  | .BEDROOM => "Bedroom"
  | .GARDEN => "Garden"
  | .FACADE => "Facade"
  | .SHOWROOM => "Showroom"
  | .OFFICE => "Office"
  | .KITCHEN => "Kitchen"
  | .DINING_ROOM => "Dining Room"
  | .LOBBY => "Lobby"

inductive LightingEnvironment
  | MORNING | GOLDEN_HOUR | HIGH_NOON | STUDIO_PROFESSIONAL | NIGHT_INTERIOR | MOONLIGHT | OVERCAST | CINEMATIC
deriving DecidableEq

def LightingEnvironment.val : LightingEnvironment → String
  | .MORNING => "Natural Morning"
  | .GOLDEN_HOUR => "Golden Hour (Sunset)"
  | .HIGH_NOON => "High Noon (Bright)"
  | .STUDIO_PROFESSIONAL => "Studio Professional"
  | .NIGHT_INTERIOR => "Night (Warm Lights)"
  | .MOONLIGHT => "Night (Moonlight)"
  | .OVERCAST => "Soft Overcast"
  | .CINEMATIC => "Cinematic Moody"

inductive InputStatus
  | IMPORTED | CONFIRMED | REMOVED | REPLACED
deriving DecidableEq

/-- The render-status union `'pending' | 'processing' | 'completed' | 'error'`. -/
inductive RenderStatus
  | pending | processing | completed | error
deriving DecidableEq

inductive SpaceType
  | Interior | Exterior
deriving DecidableEq

inductive LightingDirection
  | Front | Side | Back | Overhead
deriving DecidableEq

def LightingDirection.val : LightingDirection → String
  | .Front => "Front"
  | .Side => "Side"
  | .Back => "Back"
  | .Overhead => "Overhead"

inductive LayoutDensity
  | Minimal | Balanced | Spacious
deriving DecidableEq

inductive ArrangementStyle
  | FocalPoint | Symmetrical | Organic
deriving DecidableEq

structure RenderParameters where
  spaceType : SpaceType
  roomType : RoomType
  lightingEnv : LightingEnvironment
  lightingDirection : LightingDirection
  designStyle : DesignStyle
  colorPalette : String
  mood : String
  allowExternalItems : Bool
deriving DecidableEq

structure StagingParameters extends RenderParameters where
  layoutDensity : LayoutDensity
  arrangementStyle : ArrangementStyle
  viewpoints : List CameraAngle
deriving DecidableEq

structure ProductImage where
  id : String
  originalUrl : String
  renderedUrl : Option String := none
  viewType : ViewType
  inputStatus : InputStatus
  renderStatus : RenderStatus
  isSelected : Option Bool := none
deriving DecidableEq

structure StagedScene where
  id : String
  productIds : List String
  angle : CameraAngle
  renderedUrl : Option String := none
  status : RenderStatus
deriving DecidableEq

inductive Mode
  | Individual | Staging
deriving DecidableEq

structure Collection where
  id : String
  name : String
  mode : Mode
  parameters : RenderParameters
  stagingParameters : StagingParameters
  images : List ProductImage
  stagedScenes : List StagedScene
  referenceImage : Option String := none
  isConfirmed : Bool
deriving DecidableEq

/-! ## JavaScript-semantics helpers -/

/-- Truthiness of an optional string (`undefined` and `""` are falsy). -/
def strTruthy : Option String → Bool
  | none => false
  | some s => !(s == "")

/-- `String.prototype.includes` for a non-empty pattern, via `splitOn`. -/
def strIncludes (s pat : String) : Bool :=
  (s.splitOn pat).length != 1

/-! ## Gemini service (`services/geminiService.ts`) -/

/-- A JavaScript error value as inspected by the service and the orchestrator:
an optional HTTP-style `status` field and a `message`. -/
structure JsError where
  status : Option Int := none
  message : String
deriving DecidableEq

def MAX_RETRIES : Nat := 3

def INITIAL_RETRY_DELAY : Nat := 2000

/-- The rewritten error thrown by `callWithRetry` on a 401 failure. -/
def API_KEY_INVALID_ERROR : JsError :=
  { status := none
    message := "API_KEY_INVALID: API Key không hợp lệ trong GitHub Secrets." }

/-- The observable trace of a `callWithRetry` execution: its final outcome,
the number of invocations of the wrapped operation, and the backoff delays
(in milliseconds) slept between attempts. -/
structure RetryTrace (R : Type) where
  result : Except JsError R
  calls : Nat
  delays : List Nat

/-- The body of `callWithRetry`'s `for (let i = 0; i <= MAX_RETRIES; i++)`
loop.  `fn n` is the outcome of the `n`-th invocation of the wrapped
operation, `i` the current attempt index, `lastError` the `lastError`
variable.  `fuel` is the remaining number of loop iterations
(`maxRetries + 1 - i`); the `fuel = 0` case corresponds to the loop exiting
with `throw lastError` (dead code in the source, since `continue` only fires
when `i < maxRetries`). -/
def callWithRetryLoop {R : Type} (maxRetries initialDelay : Nat)
    (fn : Nat → Except JsError R) : Nat → Nat → Option JsError → RetryTrace R
  | 0, _, lastError =>
    { result := .error (lastError.getD { message := "unreachable" }), calls := 0, delays := [] }
  | fuel + 1, i, _ =>
    match fn i with
    | .ok r => { result := .ok r, calls := 1, delays := [] }
    | .error e =>
      if e.status = some 429 ∧ i < maxRetries then
        let rest := callWithRetryLoop maxRetries initialDelay fn fuel (i + 1) (some e)
        { result := rest.result
          calls := rest.calls + 1
          delays := initialDelay * 2 ^ i :: rest.delays }
      else if e.status = some 401 then
        { result := .error API_KEY_INVALID_ERROR, calls := 1, delays := [] }
      else
        { result := .error e, calls := 1, delays := [] }

/-- `callWithRetry` of `services/geminiService.ts` (MAX_RETRIES = 3,
INITIAL_RETRY_DELAY = 2000). -/
def callWithRetry {R : Type} (fn : Nat → Except JsError R) : RetryTrace R :=
  callWithRetryLoop MAX_RETRIES INITIAL_RETRY_DELAY fn (MAX_RETRIES + 1) 0 none

/-- A part of a `generateContent` request: an inline image payload or a text
segment. -/
inductive ReqPart
  | inlineData (data : String)
  | text (s : String)
deriving DecidableEq

/-- The inline-image payloads of a request's part list, in order. -/
def imageParts : List ReqPart → List String
  | [] => []
  | .inlineData d :: rest => d :: imageParts rest
  | .text _ :: rest => imageParts rest

/-- A part of a `generateContent` response: an inline image or anything else. -/
inductive RespPart
  | inlineData (data : String)
  | other
deriving DecidableEq

/-- The response post-processing shared by `renderProduct` / `stageRoom` /
`editImage`: return the first inline image as a data URL, else `undefined`. -/
def extractImage : List RespPart → Option String
  | [] => none
  | .inlineData d :: _ => some ("data:image/jpeg;base64," ++ d)
  | .other :: rest => extractImage rest

/-- The `systemPrompt` template of `renderProduct`, after `.trim()`.
`hasRef` is the truthiness of the optional mood-board `referenceImage`. -/
def renderProductPrompt (product : ProductImage) (params : RenderParameters)
    (hasRef : Bool) : String :=
  "Professional CGI Product Rendering.\n      Product: " ++ product.viewType.val
    ++ " view.\n      Environment: " ++ params.roomType.val
    ++ ".\n      Style: " ++ params.designStyle.val
    ++ ".\n      Lighting: " ++ params.lightingEnv.val ++ ", "
    ++ params.lightingDirection.val
    ++ " direction.\n      Mood: " ++ params.mood
    ++ ".\n      Task: Place the product naturally in the scene with realistic shadows and materials."
    ++ (if hasRef then
          "\n      CRITICAL: Emulate the EXACT visual style from the provided MOOD BOARD image."
        else "")

/-- The ordered `parts` list built by `renderProduct`.  `encode url width`
stands for the external `processImage(url, width)` (product images use the
default `maxWidth = 1024`). -/
def renderProductParts (encode : String → Nat → String) (product : ProductImage)
    (params : RenderParameters) (referenceImage : Option String) : List ReqPart :=
  [ReqPart.inlineData (encode product.originalUrl 1024)]
    ++ (if strTruthy referenceImage then
          [ReqPart.inlineData (encode (referenceImage.getD "") 1024)]
        else [])
    ++ [ReqPart.text (renderProductPrompt product params (strTruthy referenceImage))]

/-- The `angleDescription` lookup table of `stageRoom` (every enum value is a
key, so the `|| angle` fallback is dead code). -/
def angleDescription : CameraAngle → String
  | .WIDE => "Panoramic wide shot."
  | .MEDIUM => "Medium range shot."
  | .CLOSEUP => "Macro-style detail shot."
  | .TOP_DOWN => "BIRD'S EYE VIEW."
  | .SIDE_PERSPECTIVE => "Diagonal 45-degree view."
  | .DETAIL_MACRO => "Extreme close-up."

/-- The `systemPrompt` template of `stageRoom`, after `.trim()`.  `isSubShot`
is the truthiness of `masterShotUrl`. -/
def stageRoomPrompt (params : StagingParameters) (angle : CameraAngle)
    (isSubShot : Bool) : String :=
  "Professional Interior CGI Staging.\n      "
    ++ (if isSubShot then
          "SPATIAL CHANGE: MOVE CAMERA. Keep same room but different angle."
        else "ESTABLISH MASTER SHOT.")
    ++ "\n      Atmosphere: " ++ params.mood
    ++ ". Style: " ++ params.designStyle.val
    ++ ". Lighting: " ++ params.lightingEnv.val
    ++ ".\n      Current Camera Angle: " ++ angleDescription angle ++ "."

/-- The leading reference images of a `stageRoom` request: the master shot if
supplied (truthy), else the mood board if supplied (truthy), else nothing —
mirroring `if (isSubShot && masterShotUrl) ... else if (referenceImage) ...`. -/
def stageLeadRefs (encode : String → Nat → String)
    (referenceImage masterShotUrl : Option String) : List ReqPart :=
  if strTruthy masterShotUrl then
    [ReqPart.inlineData (encode (masterShotUrl.getD "") 1024)]
  else if strTruthy referenceImage then
    [ReqPart.inlineData (encode (referenceImage.getD "") 1024)]
  else []

/-- The ordered `parts` list built by `stageRoom`: the lead reference (master
shot or mood board), then each product image (downscaled at width 800), then
the system prompt. -/
def stageRoomParts (encode : String → Nat → String) (products : List ProductImage)
    (params : StagingParameters) (angle : CameraAngle)
    (referenceImage masterShotUrl : Option String) : List ReqPart :=
  stageLeadRefs encode referenceImage masterShotUrl
    ++ products.map (fun p => ReqPart.inlineData (encode p.originalUrl 800))
    ++ [ReqPart.text (stageRoomPrompt params angle (strTruthy masterShotUrl))]

/-! ## Render orchestrator (`App.tsx`, `handleRender`) -/

/-- The slice of the UI state the orchestrator reads and writes: the
collection (work-item store) and the `errorMessage` banner. -/
structure AppState where
  collection : Collection
  errorMessage : Option String := none
deriving DecidableEq

/-- The field update applied by `updateImageStatus` to a matching image:
`{ ...i, renderStatus: status, ...(url && { renderedUrl: url }) }`. -/
def applyImageUpdate (i : ProductImage) (status : RenderStatus)
    (url : Option String) : ProductImage :=
  { i with renderStatus := status
           renderedUrl := if strTruthy url then url else i.renderedUrl }

/-- `updateImageStatus(id, status, url?)` of `App.tsx`. -/
def updateImageStatus (st : AppState) (id : String) (status : RenderStatus)
    (url : Option String) : AppState :=
  { st with collection := { st.collection with
      images := st.collection.images.map
        (fun i => if i.id = id then applyImageUpdate i status url else i) } }

/-- The field update applied by `updateSceneStatus` to a matching scene. -/
def applySceneUpdate (s : StagedScene) (status : RenderStatus)
    (url : Option String) : StagedScene :=
  { s with status := status
           renderedUrl := if strTruthy url then url else s.renderedUrl }

/-- `updateSceneStatus(id, status, url?)` of `App.tsx`. -/
def updateSceneStatus (st : AppState) (id : String) (status : RenderStatus)
    (url : Option String) : AppState :=
  { st with collection := { st.collection with
      stagedScenes := st.collection.stagedScenes.map
        (fun s => if s.id = id then applySceneUpdate s status url else s) } }

/-- The catch-block of `handleRender`: map the thrown error to the
user-facing message shown in the error modal. -/
def classifyError (e : JsError) : String :=
  if strIncludes e.message "API_KEY_MISSING" then
    "Thiếu API_KEY. Hãy vào GitHub Repository > Settings > Secrets and variables > Actions để tạo Secret tên là API_KEY."
  else if strIncludes e.message "API_KEY_INVALID" then
    "API Key không hợp lệ hoặc không có quyền truy cập mô hình Imagen. Hãy kiểm tra lại key trong GitHub Secrets."
  else
    "Lỗi hệ thống: "
      ++ (if e.message = "" then "Vui lòng kiểm tra lại cấu hình." else e.message)

/-- The message shown when a staging run is launched with no selected item. -/
def SELECT_PRODUCT_MSG : String :=
  "Vui lòng chọn ít nhất một sản phẩm trước khi render không gian."

/-- The individual-mode loop of `handleRender`: for each image of the
snapshot `items` (in order), mark it `processing`, perform the remote call
(`oracle j` is the outcome of the `j`-th call of the run: a thrown error, or
the `string | undefined` returned by `renderProduct`), and on a truthy result
mark it `completed` with the rendered URL.  A thrown error is caught by the
surrounding `try`, which sets the error message and ends the run. -/
def renderLoop (oracle : Nat → Except JsError (Option String)) :
    Nat → List ProductImage → AppState → AppState
  | _, [], st => st
  | j, img :: rest, st =>
    let st1 := updateImageStatus st img.id .processing none
    match oracle j with
    | .error e => { st1 with errorMessage := some (classifyError e) }
    | .ok url =>
      let st2 := if strTruthy url then updateImageStatus st1 img.id .completed url else st1
      renderLoop oracle (j + 1) rest st2

/-- The comparator passed to `Array.prototype.sort` over the requested
viewpoints: `a === WIDE ? -1 : b === WIDE ? 1 : 0`. -/
def wideCompare (a b : CameraAngle) : Int :=
  if a = .WIDE then -1 else if b = .WIDE then 1 else 0

/-- Stable insertion of an element into an already-sorted list: `x` is placed
before the first `y` with `wideCompare x y ≤ 0`. -/
def wideInsert (x : CameraAngle) : List CameraAngle → List CameraAngle
  | [] => [x]
  | y :: ys => if wideCompare x y ≤ 0 then x :: y :: ys else y :: wideInsert x ys

/-- `[...viewpoints].sort(comparator)`: ECMAScript `sort` is stable, so it is
modelled as a stable sort driven by the comparator (insertion formulation). -/
def sortViewpoints : List CameraAngle → List CameraAngle
  | [] => []
  | x :: xs => wideInsert x (sortViewpoints xs)

/-- One `stageRoom` invocation as issued by the staging loop: the argument
tuple `(selected, stagingParameters, scene.angle, referenceImage,
masterShotUrl)`. -/
structure StageRequest where
  products : List ProductImage
  params : StagingParameters
  angle : CameraAngle
  referenceImage : Option String
  masterShotUrl : Option String
deriving DecidableEq

/-- Scene-item batch creation: `sortedAngles.map(angle => ({...}))`, with the
random ids supplied by `ids` in creation order. -/
def mkScenes (ids : Nat → String) (productIds : List String) :
    Nat → List CameraAngle → List StagedScene
  | _, [] => []
  | i, a :: as =>
    { id := ids i, productIds := productIds, angle := a, status := .pending }
      :: mkScenes ids productIds (i + 1) as

/-- The staging loop of `handleRender`: process the scene batch strictly in
order; mark each scene `processing`, call `stageRoom` (outcome `oracle i`),
on a truthy result mark it `completed` and — only for the master, index 0 —
retain the output as `masterShotUrl` for the following iterations.  Returns
the final state together with the list of `stageRoom` requests issued. -/
def stageLoop (oracle : Nat → Except JsError (Option String))
    (selected : List ProductImage) (params : StagingParameters)
    (referenceImage : Option String) :
    List StagedScene → Nat → Option String → AppState →
      AppState × List StageRequest
  | [], _, _, st => (st, [])
  | scene :: rest, i, masterShotUrl, st =>
    let st1 := updateSceneStatus st scene.id .processing none
    let req : StageRequest :=
      { products := selected, params := params, angle := scene.angle
        referenceImage := referenceImage, masterShotUrl := masterShotUrl }
    match oracle i with
    | .error e => ({ st1 with errorMessage := some (classifyError e) }, [req])
    | .ok url =>
      let st2 := if strTruthy url then updateSceneStatus st1 scene.id .completed url else st1
      let master' := if strTruthy url ∧ i = 0 then url else masterShotUrl
      let next := stageLoop oracle selected params referenceImage rest (i + 1) master' st2
      (next.1, req :: next.2)

/-- `collection.images.filter(img => img.isSelected && img.inputStatus ===
InputStatus.CONFIRMED)`: the product items a staging run stages. -/
def selectedProducts (c : Collection) : List ProductImage :=
  c.images.filter
    (fun img => img.isSelected == some true && img.inputStatus == InputStatus.CONFIRMED)

/-- The staging branch of `handleRender`: filter the selected + confirmed
products, abort with a message if none, otherwise sort the viewpoints, append
the pending scene batch to the store, and run the staging loop. -/
def stagingRun (oracle : Nat → Except JsError (Option String))
    (ids : Nat → String) (st : AppState) : AppState × List StageRequest :=
  let selected := selectedProducts st.collection
  if selected.isEmpty then
    ({ st with errorMessage := some SELECT_PRODUCT_MSG }, [])
  else
    let sortedAngles := sortViewpoints st.collection.stagingParameters.viewpoints
    let scenes := mkScenes ids (selected.map (·.id)) 0 sortedAngles
    let st1 := { st with collection := { st.collection with
      stagedScenes := st.collection.stagedScenes ++ scenes } }
    stageLoop oracle selected st.collection.stagingParameters
      st.collection.referenceImage scenes 0 none st1

/-- `handleRender` of `App.tsx`: guard on confirmation, clear the error
banner, then run the mode-selected pipeline.  `oracle j` is the outcome of
the `j`-th remote call of the run; `ids` supplies the random scene ids.  The
returned list is the sequence of `stageRoom` requests issued (empty in
individual mode, which issues `renderProduct` requests instead). -/
def handleRender (oracle : Nat → Except JsError (Option String))
    (ids : Nat → String) (st : AppState) : AppState × List StageRequest :=
  if st.collection.isConfirmed = false then (st, [])
  else
    let st0 := { st with errorMessage := none }
    match st0.collection.mode with
    | .Individual =>
      let imagesToRender := st0.collection.images.filter
        (fun img => img.inputStatus == InputStatus.CONFIRMED
          && !(img.renderStatus == RenderStatus.completed))
      (renderLoop oracle 0 imagesToRender st0, [])
    | .Staging => stagingRun oracle ids st0

/-- `INITIAL_PARAMS` of `App.tsx`. -/
def INITIAL_PARAMS : RenderParameters :=
  { spaceType := .Interior
    roomType := .LIVING_ROOM
    lightingEnv := .MORNING
    lightingDirection := .Side
    designStyle := .MODERN
    colorPalette := "Neutral Earthy Tones"
    mood := "Warm and inviting"
    allowExternalItems := false }

/-- `INITIAL_STAGING_PARAMS` of `App.tsx`. -/
def INITIAL_STAGING_PARAMS : StagingParameters :=
  { INITIAL_PARAMS with
    layoutDensity := .Balanced
    arrangementStyle := .FocalPoint
    viewpoints := [.WIDE, .TOP_DOWN, .SIDE_PERSPECTIVE, .CLOSEUP] }

/-! ## Lemmas about the viewpoint sort -/

theorem wideInsert_wide (l : List CameraAngle) :
    wideInsert .WIDE l = .WIDE :: l := by
  cases l with
  | nil => rfl
  | cons y ys =>
    have h : wideCompare .WIDE y ≤ 0 := by simp [wideCompare]
    simp [wideInsert, h]

theorem wideInsert_ne_nil (x : CameraAngle) (l : List CameraAngle) :
    wideInsert x l ≠ [] := by
  cases l with
  | nil => simp [wideInsert]
  | cons y ys =>
    simp only [wideInsert]
    split <;> simp

theorem sortViewpoints_ne_nil (x : CameraAngle) (xs : List CameraAngle) :
    sortViewpoints (x :: xs) ≠ [] := by
  simp only [sortViewpoints]
  exact wideInsert_ne_nil _ _

theorem wideInsert_skip_wides (x : CameraAngle) (hx : x ≠ .WIDE)
    (l m : List CameraAngle) (hl : ∀ y ∈ l, y = CameraAngle.WIDE) :
    wideInsert x (l ++ m) = l ++ wideInsert x m := by
  induction l with
  | nil => simp
  | cons y ys ih =>
    have hy : y = CameraAngle.WIDE := hl y (by simp)
    have hcmp : ¬ wideCompare x y ≤ 0 := by
      subst hy; simp [wideCompare, hx]
    rw [List.cons_append, wideInsert, if_neg hcmp,
      ih (fun z hz => hl z (by simp [hz]))]
    rfl

theorem wideInsert_head_not_wide (x : CameraAngle) (hx : x ≠ .WIDE)
    (m : List CameraAngle) (hm : ∀ y ∈ m, y ≠ CameraAngle.WIDE) :
    wideInsert x m = x :: m := by
  cases m with
  | nil => rfl
  | cons y ys =>
    have hy : y ≠ CameraAngle.WIDE := hm y (by simp)
    have hcmp : wideCompare x y ≤ 0 := by simp [wideCompare, hx, hy]
    simp [wideInsert, hcmp]

theorem sortViewpoints_partition (vs : List CameraAngle) :
    sortViewpoints vs
      = vs.filter (fun a => a == CameraAngle.WIDE)
          ++ vs.filter (fun a => !(a == CameraAngle.WIDE)) := by
  induction vs with
  | nil => rfl
  | cons x xs ih =>
    simp only [sortViewpoints, ih]
    by_cases hx : x = CameraAngle.WIDE
    · subst hx
      rw [wideInsert_wide]
      simp
    · rw [wideInsert_skip_wides x hx _ _
        (fun y hy => by simpa using (List.mem_filter.mp hy).2)]
      rw [wideInsert_head_not_wide x hx _
        (fun y hy => by simpa using (List.mem_filter.mp hy).2)]
      simp [List.filter_cons, hx]

/-- C2: for every staging run whose requested viewpoint list contains `WIDE`,
the scene order built by the orchestrator (`sortViewpoints`, the model of
`[...viewpoints].sort(a === WIDE ? -1 : b === WIDE ? 1 : 0)`) places `WIDE`
first and keeps every other angle in its relative input order (the sorted
list is exactly the `WIDE` occurrences followed by the non-`WIDE` angles in
input order); the head of this order — the master — is `WIDE` whenever the
input contains it. -/
theorem sortViewpoints_wide_first (vs : List CameraAngle) :
    sortViewpoints vs
      = vs.filter (fun a => a == CameraAngle.WIDE)
          ++ vs.filter (fun a => !(a == CameraAngle.WIDE))
    ∧ (CameraAngle.WIDE ∈ vs →
        (sortViewpoints vs).head? = some CameraAngle.WIDE) := by
  refine ⟨sortViewpoints_partition vs, fun hmem => ?_⟩
  rw [sortViewpoints_partition vs]
  have hw : CameraAngle.WIDE ∈ vs.filter (fun a => a == CameraAngle.WIDE) :=
    List.mem_filter.mpr ⟨hmem, by simp⟩
  cases hfw : vs.filter (fun a => a == CameraAngle.WIDE) with
  | nil => rw [hfw] at hw; simp at hw
  | cons a t =>
    have ha : a = CameraAngle.WIDE := by
      have : a ∈ vs.filter (fun a => a == CameraAngle.WIDE) := by
        rw [hfw]; simp
      simpa using (List.mem_filter.mp this).2
    simp [ha]

/-- Witness for C2 at the angle list of Scenario C,
`[TOP_DOWN, WIDE, CLOSEUP]`. -/
theorem sortViewpoints_wide_first_witness :
    (sortViewpoints [CameraAngle.TOP_DOWN, CameraAngle.WIDE, CameraAngle.CLOSEUP]).head?
      = some CameraAngle.WIDE :=
  (sortViewpoints_wide_first
    [CameraAngle.TOP_DOWN, CameraAngle.WIDE, CameraAngle.CLOSEUP]).2 (by decide)

/-! ## Lemmas about the retry policy -/

theorem callWithRetryLoop_all429 {R : Type} (maxRetries initialDelay : Nat)
    (fn : Nat → Except JsError R) (errf : Nat → JsError)
    (hfn : ∀ n, fn n = .error (errf n))
    (h429 : ∀ n, (errf n).status = some 429) :
    ∀ n i lastError, i + n = maxRetries →
      (callWithRetryLoop maxRetries initialDelay fn (n + 1) i lastError).calls = n + 1
      ∧ (callWithRetryLoop maxRetries initialDelay fn (n + 1) i lastError).result
          = .error (errf maxRetries) := by
  intro n
  induction n with
  | zero =>
    intro i lastError hi
    have hieq : i = maxRetries := by omega
    have h1 : ¬((errf i).status = some 429 ∧ i < maxRetries) := by
      rintro ⟨_, hlt⟩
      omega
    have h2 : ∀ k, ¬((errf k).status = some 401) := by
      intro k hc
      rw [h429] at hc
      exact absurd (Option.some.inj hc) (by decide)
    simp [callWithRetryLoop, hfn, h1, h2, hieq]
  | succ n ih =>
    intro i lastError hi
    have hlt : i < maxRetries := by omega
    have h1 : (errf i).status = some 429 ∧ i < maxRetries := ⟨h429 i, hlt⟩
    have ihr := ih (i + 1) (some (errf i)) (by omega)
    have hstep : callWithRetryLoop maxRetries initialDelay fn (n + 1 + 1) i lastError
        = { result := (callWithRetryLoop maxRetries initialDelay fn (n + 1) (i + 1)
              (some (errf i))).result,
            calls := (callWithRetryLoop maxRetries initialDelay fn (n + 1) (i + 1)
              (some (errf i))).calls + 1,
            delays := initialDelay * 2 ^ i
              :: (callWithRetryLoop maxRetries initialDelay fn (n + 1) (i + 1)
                (some (errf i))).delays } := by
      conv_lhs => rw [callWithRetryLoop]
      rw [hfn i]
      simp only [if_pos h1]
    rw [hstep]
    exact ⟨by rw [ihr.1], ihr.2⟩

/-- C3: a wrapped operation that fails with a rate-limited (status 429) error
on every invocation is invoked exactly `MAX_RETRIES + 1` times by
`callWithRetry`, and the failure is then propagated to the caller (the last
attempt's error). -/
theorem callWithRetry_rateLimited_retry_bound {R : Type}
    (fn : Nat → Except JsError R) (errf : Nat → JsError)
    (hfn : ∀ n, fn n = .error (errf n))
    (h429 : ∀ n, (errf n).status = some 429) :
    (callWithRetry fn).calls = MAX_RETRIES + 1
    ∧ (callWithRetry fn).result = .error (errf MAX_RETRIES) :=
  callWithRetryLoop_all429 MAX_RETRIES INITIAL_RETRY_DELAY fn errf hfn h429
    MAX_RETRIES 0 none (by omega)

/-- A remote call that always fails rate-limited. -/
def alwaysRateLimited : Nat → Except JsError (Option String) :=
  fun _ => .error { status := some 429, message := "Resource exhausted" }

/-- Witness for C3: the always-rate-limited call is invoked 4 times
(`MAX_RETRIES = 3`) and its failure is propagated. -/
theorem callWithRetry_rateLimited_retry_bound_witness :
    (callWithRetry alwaysRateLimited).calls = MAX_RETRIES + 1
    ∧ (callWithRetry alwaysRateLimited).result
        = .error { status := some 429, message := "Resource exhausted" } :=
  callWithRetry_rateLimited_retry_bound alwaysRateLimited
    (fun _ => { status := some 429, message := "Resource exhausted" })
    (fun _ => rfl) (fun _ => rfl)

/-- A remote call that always fails with an unauthorized (401) error. -/
def alwaysUnauthorized : Nat → Except JsError (Option String) :=
  fun _ => .error { status := some 401, message := "Unauthorized" }

/-- C5 counterexample: a non-rate-limited failure (status 401) is NOT
propagated unchanged — `callWithRetry` rewrites it to the
`API_KEY_INVALID` error before rethrowing. -/
theorem unauthorized_error_rewritten_cex :
    (callWithRetry alwaysUnauthorized).result = .error API_KEY_INVALID_ERROR
    ∧ API_KEY_INVALID_ERROR ≠ { status := some 401, message := "Unauthorized" } := by
  exact ⟨rfl, by decide⟩

/-- C5 (amended): a failure that does not satisfy the retry condition
(not rate-limited, or rate-limited with the budget exhausted) and is not a
401 is propagated unchanged — the very same error value — after exactly one
further invocation; and when every attempt is rate-limited, the final
attempt's error value itself is propagated (status 429 is never rewritten).
Only 401 failures are rewritten (to `API_KEY_INVALID_ERROR`). -/
theorem callWithRetry_propagates_failures {R : Type} :
    (∀ (fn : Nat → Except JsError R) (e : JsError) (fuel i : Nat)
        (lastError : Option JsError),
        fn i = .error e →
        ¬(e.status = some 429 ∧ i < MAX_RETRIES) →
        e.status ≠ some 401 →
        callWithRetryLoop MAX_RETRIES INITIAL_RETRY_DELAY fn (fuel + 1) i lastError
          = { result := .error e, calls := 1, delays := [] })
    ∧ (∀ (fn : Nat → Except JsError R) (errf : Nat → JsError),
        (∀ n, fn n = .error (errf n)) →
        (∀ n, (errf n).status = some 429) →
        (callWithRetry fn).result = .error (errf MAX_RETRIES)) := by
  constructor
  · intro fn e fuel i lastError hfn hretry h401
    simp [callWithRetryLoop, hfn, if_neg hretry, h401]
  · intro fn errf hfn h429
    exact (callWithRetryLoop_all429 MAX_RETRIES INITIAL_RETRY_DELAY fn errf hfn h429
      MAX_RETRIES 0 none (by omega)).2

/-- A remote call that always fails with a generic server error. -/
def alwaysServerError : Nat → Except JsError (Option String) :=
  fun _ => .error { status := some 500, message := "Internal error" }

/-- Witness for the amended C5: a generic (status 500) failure is propagated
unchanged on the first attempt, and the exhausted rate-limited failure is
propagated as the final attempt's own error value. -/
theorem callWithRetry_propagates_failures_witness :
    callWithRetryLoop MAX_RETRIES INITIAL_RETRY_DELAY alwaysServerError
        (MAX_RETRIES + 1) 0 none
      = { result := .error { status := some 500, message := "Internal error" },
          calls := 1, delays := [] }
    ∧ (callWithRetry alwaysRateLimited).result
        = .error { status := some 429, message := "Resource exhausted" } :=
  ⟨callWithRetry_propagates_failures.1 alwaysServerError _ MAX_RETRIES 0 none rfl
      (by decide) (by decide),
   callWithRetry_propagates_failures.2 alwaysRateLimited
      (fun _ => { status := some 429, message := "Resource exhausted" })
      (fun _ => rfl) (fun _ => rfl)⟩

/-! ## Lemmas about prompt composition -/

/-- C8: the single-product instruction text and part list are pure functions
of the inputs the spec names — product view type, render parameters, and the
mood board — with no dependence on hidden state or on any other field of the
product (id, statuses, selection, previous render): two compositions whose
inputs agree yield byte-identical instruction text (which depends on the mood
board only through its presence) and identical reference-image ordering. -/
theorem renderProduct_prompt_pure (encode : String → Nat → String)
    (p1 p2 : ProductImage) (params : RenderParameters) (r1 r2 : Option String)
    (hview : p1.viewType = p2.viewType)
    (hurl : p1.originalUrl = p2.originalUrl)
    (hpres : strTruthy r1 = strTruthy r2) :
    renderProductPrompt p1 params (strTruthy r1)
      = renderProductPrompt p2 params (strTruthy r2)
    ∧ (r1 = r2 →
        renderProductParts encode p1 params r1 = renderProductParts encode p2 params r2) := by
  constructor
  · simp [renderProductPrompt, hview, hpres]
  · intro hr
    subst hr
    simp [renderProductParts, renderProductPrompt, hview, hurl]

/-- Witness for C8: two products sharing view type and source image but
differing in id, selection and render status compose identical prompts. -/
theorem renderProduct_prompt_pure_witness :
    renderProductPrompt
        { id := "a", originalUrl := "u", viewType := .FRONT,
          inputStatus := .CONFIRMED, renderStatus := .pending }
        INITIAL_PARAMS (strTruthy (some "mb"))
      = renderProductPrompt
        { id := "b", originalUrl := "u", viewType := .FRONT,
          inputStatus := .IMPORTED, renderStatus := .completed, isSelected := some true }
        INITIAL_PARAMS (strTruthy (some "mb")) :=
  (renderProduct_prompt_pure (fun s _ => s)
    { id := "a", originalUrl := "u", viewType := .FRONT,
      inputStatus := .CONFIRMED, renderStatus := .pending }
    { id := "b", originalUrl := "u", viewType := .FRONT,
      inputStatus := .IMPORTED, renderStatus := .completed, isSelected := some true }
    INITIAL_PARAMS (some "mb") (some "mb") rfl rfl rfl).1

/-! ## Image-part bookkeeping -/

theorem imageParts_append (l1 l2 : List ReqPart) :
    imageParts (l1 ++ l2) = imageParts l1 ++ imageParts l2 := by
  induction l1 with
  | nil => rfl
  | cons p rest ih => cases p <;> simp [imageParts, ih]

theorem imageParts_map_inline (f : ProductImage → String) (l : List ProductImage) :
    imageParts (l.map (fun p => ReqPart.inlineData (f p))) = l.map f := by
  induction l with
  | nil => rfl
  | cons p rest ih => simp [imageParts, ih]

theorem stage_subShot_parts (encode : String → Nat → String)
    (products : List ProductImage) (params : StagingParameters)
    (angle : CameraAngle) (ref : Option String) (s : String) (hs : s ≠ "") :
    stageRoomParts encode products params angle ref (some s)
      = ReqPart.inlineData (encode s 1024)
          :: (products.map (fun p => ReqPart.inlineData (encode p.originalUrl 800))
              ++ [ReqPart.text (stageRoomPrompt params angle true)]) := by
  have ht : strTruthy (some s) = true := by simp [strTruthy, hs]
  simp [stageRoomParts, stageLeadRefs, ht]

theorem stage_subShot_imageParts (encode : String → Nat → String)
    (products : List ProductImage) (params : StagingParameters)
    (angle : CameraAngle) (ref : Option String) (s : String) (hs : s ≠ "") :
    imageParts (stageRoomParts encode products params angle ref (some s))
      = encode s 1024 :: products.map (fun p => encode p.originalUrl 800) := by
  rw [stage_subShot_parts encode products params angle ref s hs]
  have := imageParts_append
    (products.map (fun p => ReqPart.inlineData (encode p.originalUrl 800)))
    [ReqPart.text (stageRoomPrompt params angle true)]
  simp [imageParts, this, imageParts_map_inline]

theorem stage_master_imageParts (encode : String → Nat → String)
    (products : List ProductImage) (params : StagingParameters)
    (angle : CameraAngle) (ref : Option String) :
    imageParts (stageRoomParts encode products params angle ref none)
      = (if strTruthy ref then [encode (ref.getD "") 1024] else [])
          ++ products.map (fun p => encode p.originalUrl 800) := by
  have h0 : strTruthy none = false := rfl
  by_cases hr : strTruthy ref = true <;>
    simp [stageRoomParts, stageLeadRefs, h0, hr, imageParts_append,
      imageParts_map_inline, imageParts]

/-- C10: a `stageRoom` request composed with a (truthy) master-shot image
never includes the mood-board reference: the part list is exactly the master
image, the product images and the instruction, whatever mood board was
supplied — the master takes precedence and the two references are mutually
exclusive. -/
theorem master_excludes_moodboard (encode : String → Nat → String)
    (products : List ProductImage) (params : StagingParameters)
    (angle : CameraAngle) (ref : Option String) (s : String) (hs : s ≠ "") :
    stageRoomParts encode products params angle ref (some s)
      = ReqPart.inlineData (encode s 1024)
          :: (products.map (fun p => ReqPart.inlineData (encode p.originalUrl 800))
              ++ [ReqPart.text (stageRoomPrompt params angle true)]) :=
  stage_subShot_parts encode products params angle ref s hs

/-- Witness for C10 at a concrete request: with both a mood board and a
master shot supplied, the composed parts hold only the master image, the
product image and the instruction. -/
theorem master_excludes_moodboard_witness :
    stageRoomParts (fun s _ => s)
        [{ id := "a", originalUrl := "u", viewType := .FRONT,
           inputStatus := .CONFIRMED, renderStatus := .pending }]
        INITIAL_STAGING_PARAMS CameraAngle.MEDIUM (some "moodboard") (some "master")
      = ReqPart.inlineData "master"
          :: ([ReqPart.inlineData "u"]
              ++ [ReqPart.text (stageRoomPrompt INITIAL_STAGING_PARAMS CameraAngle.MEDIUM true)]) :=
  master_excludes_moodboard (fun s _ => s)
    [{ id := "a", originalUrl := "u", viewType := .FRONT,
       inputStatus := .CONFIRMED, renderStatus := .pending }]
    INITIAL_STAGING_PARAMS CameraAngle.MEDIUM (some "moodboard") "master" (by decide)

/-! ## Lemmas about the orchestrator -/

theorem handleRender_staging (oracle : Nat → Except JsError (Option String))
    (ids : Nat → String) (st : AppState)
    (hconf : st.collection.isConfirmed = true)
    (hmode : st.collection.mode = Mode.Staging) :
    handleRender oracle ids st = stagingRun oracle ids { st with errorMessage := none } := by
  simp [handleRender, hconf, hmode]

theorem stagingRun_unfold (oracle : Nat → Except JsError (Option String))
    (ids : Nat → String) (st : AppState)
    (hsel : selectedProducts st.collection ≠ []) :
    stagingRun oracle ids st
      = stageLoop oracle (selectedProducts st.collection)
          st.collection.stagingParameters st.collection.referenceImage
          (mkScenes ids ((selectedProducts st.collection).map (·.id)) 0
            (sortViewpoints st.collection.stagingParameters.viewpoints))
          0 none
          { st with collection := { st.collection with
              stagedScenes := st.collection.stagedScenes
                ++ mkScenes ids ((selectedProducts st.collection).map (·.id)) 0
                  (sortViewpoints st.collection.stagingParameters.viewpoints) } } := by
  have hE : (selectedProducts st.collection).isEmpty = false := by
    cases h : selectedProducts st.collection with
    | nil => exact absurd h hsel
    | cons a l => rfl
  simp [stagingRun, hE]

theorem stageLoop_step_err (oracle : Nat → Except JsError (Option String))
    (sel : List ProductImage) (params : StagingParameters) (ref : Option String)
    (scene : StagedScene) (srest : List StagedScene) (i : Nat)
    (master : Option String) (st : AppState) (e : JsError)
    (h : oracle i = .error e) :
    stageLoop oracle sel params ref (scene :: srest) i master st
      = ({ updateSceneStatus st scene.id .processing none with
           errorMessage := some (classifyError e) },
         [{ products := sel, params := params, angle := scene.angle,
            referenceImage := ref, masterShotUrl := master }]) := by
  simp [stageLoop, h]

theorem stageLoop_step_ok (oracle : Nat → Except JsError (Option String))
    (sel : List ProductImage) (params : StagingParameters) (ref : Option String)
    (scene : StagedScene) (srest : List StagedScene) (i : Nat)
    (master : Option String) (st : AppState) (url : Option String)
    (h : oracle i = .ok url) :
    stageLoop oracle sel params ref (scene :: srest) i master st
      = ((stageLoop oracle sel params ref srest (i + 1)
            (if strTruthy url ∧ i = 0 then url else master)
            (if strTruthy url then
              updateSceneStatus (updateSceneStatus st scene.id .processing none)
                scene.id .completed url
             else updateSceneStatus st scene.id .processing none)).1,
         { products := sel, params := params, angle := scene.angle,
           referenceImage := ref, masterShotUrl := master }
           :: (stageLoop oracle sel params ref srest (i + 1)
                (if strTruthy url ∧ i = 0 then url else master)
                (if strTruthy url then
                  updateSceneStatus (updateSceneStatus st scene.id .processing none)
                    scene.id .completed url
                 else updateSceneStatus st scene.id .processing none)).2) := by
  simp [stageLoop, h]

theorem stageLoop_master_fixed (oracle : Nat → Except JsError (Option String))
    (sel : List ProductImage) (params : StagingParameters) (ref : Option String) :
    ∀ (scenes : List StagedScene) (i : Nat) (master : Option String) (st : AppState),
      i ≠ 0 →
      ∀ r ∈ (stageLoop oracle sel params ref scenes i master st).2,
        r.masterShotUrl = master := by
  intro scenes
  induction scenes with
  | nil =>
    intro i master st _ r hr
    simp [stageLoop] at hr
  | cons scene rest ih =>
    intro i master st hi r hr
    cases horacle : oracle i with
    | error e =>
      rw [stageLoop_step_err oracle sel params ref scene rest i master st e horacle] at hr
      simp at hr
      subst hr
      rfl
    | ok url =>
      rw [stageLoop_step_ok oracle sel params ref scene rest i master st url horacle] at hr
      rcases List.mem_cons.mp hr with h | h
      · subst h; rfl
      · have hm : (if strTruthy url ∧ i = 0 then url else master) = master := by
          rw [if_neg]
          rintro ⟨_, h0⟩
          exact hi h0
        rw [hm] at h
        exact ih (i + 1) master _ (by omega) r h

theorem stageLoop_none_master (oracle : Nat → Except JsError (Option String))
    (sel : List ProductImage) (params : StagingParameters) (ref : Option String)
    (h0 : ∀ url, oracle 0 = .ok url → strTruthy url = false) :
    ∀ (scenes : List StagedScene) (i : Nat) (st : AppState),
      ∀ r ∈ (stageLoop oracle sel params ref scenes i none st).2,
        r.masterShotUrl = none := by
  intro scenes
  induction scenes with
  | nil =>
    intro i st r hr
    simp [stageLoop] at hr
  | cons scene rest ih =>
    intro i st r hr
    cases horacle : oracle i with
    | error e =>
      rw [stageLoop_step_err oracle sel params ref scene rest i none st e horacle] at hr
      simp at hr
      subst hr
      rfl
    | ok url =>
      rw [stageLoop_step_ok oracle sel params ref scene rest i none st url horacle] at hr
      rcases List.mem_cons.mp hr with h | h
      · subst h; rfl
      · have hm : (if strTruthy url ∧ i = 0 then url else none) = none := by
          by_cases hi : i = 0
          · subst hi
            rw [if_neg]
            rintro ⟨ht, _⟩
            rw [h0 url horacle] at ht
            exact Bool.false_ne_true ht
          · rw [if_neg]
            rintro ⟨_, hz⟩
            exact hi hz
        rw [hm] at h
        exact ih (i + 1) _ r h

/-- The images of the store whose id is `x`. -/
def imagesWithId (st : AppState) (x : String) : List ProductImage :=
  st.collection.images.filter (fun p => p.id == x)

theorem filter_map_id_preserving (g : ProductImage → ProductImage)
    (hg : ∀ p, (g p).id = p.id) (l : List ProductImage) (x : String) :
    (l.map g).filter (fun p => p.id == x)
      = (l.filter (fun p => p.id == x)).map g := by
  induction l with
  | nil => rfl
  | cons p rest ih =>
    simp only [List.map_cons, List.filter_cons, hg]
    by_cases hp : (p.id == x) = true
    · simp [hp, ih]
    · simp [hp, ih]

theorem applyImageUpdate_id (p : ProductImage) (status : RenderStatus)
    (url : Option String) : (applyImageUpdate p status url).id = p.id := rfl

theorem imagesWithId_update_self (st : AppState) (x : String)
    (status : RenderStatus) (url : Option String) :
    imagesWithId (updateImageStatus st x status url) x
      = (imagesWithId st x).map (fun p => applyImageUpdate p status url) := by
  unfold imagesWithId updateImageStatus
  rw [filter_map_id_preserving _ (fun p => by
    by_cases h : p.id = x <;> simp [h, applyImageUpdate_id])]
  refine List.map_congr_left (fun p hp => ?_)
  have : p.id = x := by simpa using (List.mem_filter.mp hp).2
  simp [this]

theorem imagesWithId_update_other (st : AppState) (y x : String)
    (status : RenderStatus) (url : Option String) (hne : y ≠ x) :
    imagesWithId (updateImageStatus st y status url) x = imagesWithId st x := by
  unfold imagesWithId updateImageStatus
  rw [filter_map_id_preserving _ (fun p => by
    by_cases h : p.id = y <;> simp [h, applyImageUpdate_id])]
  have : ∀ p ∈ st.collection.images.filter (fun p => p.id == x),
      (if p.id = y then applyImageUpdate p status url else p) = p := by
    intro p hp
    have hx : p.id = x := by simpa using (List.mem_filter.mp hp).2
    rw [if_neg (by rw [hx]; exact fun h => hne h.symm)]
  rw [List.map_congr_left this]
  simp

theorem renderLoop_untouched (oracle : Nat → Except JsError (Option String)) :
    ∀ (items : List ProductImage) (j : Nat) (st : AppState) (x : String),
      (∀ it ∈ items, it.id ≠ x) →
      imagesWithId (renderLoop oracle j items st) x = imagesWithId st x := by
  intro items
  induction items with
  | nil => intro j st x _; rfl
  | cons img rest ih =>
    intro j st x h
    have himg : img.id ≠ x := h img (by simp)
    cases horacle : oracle j with
    | error e =>
      simp only [renderLoop, horacle]
      exact imagesWithId_update_other st img.id x .processing none himg
    | ok url =>
      simp only [renderLoop, horacle]
      rw [ih (j + 1) _ x (fun it hit => h it (by simp [hit]))]
      by_cases hu : strTruthy url = true
      · rw [if_pos hu, imagesWithId_update_other _ _ _ _ _ himg,
          imagesWithId_update_other _ _ _ _ _ himg]
      · rw [if_neg hu, imagesWithId_update_other _ _ _ _ _ himg]

theorem handleRender_staging_unfold (oracle : Nat → Except JsError (Option String))
    (ids : Nat → String) (st : AppState)
    (hconf : st.collection.isConfirmed = true)
    (hmode : st.collection.mode = Mode.Staging)
    (hsel : selectedProducts st.collection ≠ []) :
    handleRender oracle ids st
      = stageLoop oracle (selectedProducts st.collection)
          st.collection.stagingParameters st.collection.referenceImage
          (mkScenes ids ((selectedProducts st.collection).map (·.id)) 0
            (sortViewpoints st.collection.stagingParameters.viewpoints))
          0 none
          { collection := { st.collection with
              stagedScenes := st.collection.stagedScenes
                ++ mkScenes ids ((selectedProducts st.collection).map (·.id)) 0
                  (sortViewpoints st.collection.stagingParameters.viewpoints) },
            errorMessage := none } := by
  have hE : (selectedProducts st.collection).isEmpty = false := by
    cases h : selectedProducts st.collection with
    | nil => exact absurd h hsel
    | cons a l => rfl
  simp [handleRender, stagingRun, hconf, hmode, hE]

/-! ## The staging-pipeline claims -/

/-- C1: in a staging run whose master call succeeds with an image `u`, the
request issued for the master (the first in sorted order) carries no
master-shot reference — its reference images are just the optional mood board
followed by the product images — while every subsequently issued request
carries `u` as its master shot, and its composed reference-image list is
exactly `u` first, followed by the product images. -/
theorem dependent_requests_reference_master (encode : String → Nat → String)
    (oracle : Nat → Except JsError (Option String)) (ids : Nat → String)
    (st : AppState) (u : String)
    (hconf : st.collection.isConfirmed = true)
    (hmode : st.collection.mode = Mode.Staging)
    (hsel : selectedProducts st.collection ≠ [])
    (hvp : st.collection.stagingParameters.viewpoints ≠ [])
    (hmaster : oracle 0 = .ok (some u))
    (hu : u ≠ "") :
    ∃ a0 rest,
      (handleRender oracle ids st).2
        = { products := selectedProducts st.collection,
            params := st.collection.stagingParameters,
            angle := a0,
            referenceImage := st.collection.referenceImage,
            masterShotUrl := none } :: rest
      ∧ (∀ r ∈ rest,
          r.masterShotUrl = some u
          ∧ imageParts (stageRoomParts encode r.products r.params r.angle
                r.referenceImage r.masterShotUrl)
              = encode u 1024 :: r.products.map (fun p => encode p.originalUrl 800))
      ∧ imageParts (stageRoomParts encode (selectedProducts st.collection)
            st.collection.stagingParameters a0 st.collection.referenceImage none)
          = (if strTruthy st.collection.referenceImage then
              [encode (st.collection.referenceImage.getD "") 1024] else [])
              ++ (selectedProducts st.collection).map (fun p => encode p.originalUrl 800) := by
  obtain ⟨a0, as, hsort⟩ :
      ∃ a0 as, sortViewpoints st.collection.stagingParameters.viewpoints = a0 :: as := by
    cases hv : st.collection.stagingParameters.viewpoints with
    | nil => exact absurd hv hvp
    | cons v vs =>
      cases hs : sortViewpoints (v :: vs) with
      | nil => exact absurd hs (sortViewpoints_ne_nil v vs)
      | cons a t => exact ⟨a, t, rfl⟩
  have ht : strTruthy (some u) = true := by simp [strTruthy, hu]
  have hpair := handleRender_staging_unfold oracle ids st hconf hmode hsel
  rw [hsort, mkScenes] at hpair
  rw [stageLoop_step_ok oracle _ _ _ _ _ 0 none _ (some u) hmaster] at hpair
  have hcond : strTruthy (some u) = true ∧ (0 : Nat) = 0 := ⟨ht, rfl⟩
  rw [if_pos hcond, if_pos ht] at hpair
  have hreqs := congrArg Prod.snd hpair
  refine ⟨a0, _, hreqs, fun r hr => ?_, ?_⟩
  · have hm : r.masterShotUrl = some u :=
      stageLoop_master_fixed oracle _ _ _ _ 1 (some u) _ (by omega) r hr
    refine ⟨hm, ?_⟩
    rw [hm]
    exact stage_subShot_imageParts encode r.products r.params r.angle r.referenceImage u hu
  · exact stage_master_imageParts encode (selectedProducts st.collection)
      st.collection.stagingParameters a0 st.collection.referenceImage

/-- C9: when the master call resolves successfully but with no image, the
retained master-shot value stays absent, so every request issued in the run —
including every dependent — is composed on the master-establishment branch of
`stageRoom` (`isSubShot = false`): mood board as lead reference if present,
then the products, then the establish-master instruction. -/
theorem missing_master_image_keeps_establish_mode (encode : String → Nat → String)
    (oracle : Nat → Except JsError (Option String)) (ids : Nat → String)
    (st : AppState)
    (hconf : st.collection.isConfirmed = true)
    (hmode : st.collection.mode = Mode.Staging)
    (hnoimg : oracle 0 = .ok none) :
    ∀ r ∈ (handleRender oracle ids st).2,
      r.masterShotUrl = none
      ∧ stageRoomParts encode r.products r.params r.angle r.referenceImage r.masterShotUrl
          = stageLeadRefs encode r.referenceImage none
            ++ r.products.map (fun p => ReqPart.inlineData (encode p.originalUrl 800))
            ++ [ReqPart.text (stageRoomPrompt r.params r.angle false)] := by
  intro r hr
  have h0 : ∀ url, oracle 0 = .ok url → strTruthy url = false := by
    intro url h
    rw [hnoimg] at h
    injection h with h'
    subst h'
    rfl
  have hmn : r.masterShotUrl = none := by
    by_cases hsel : selectedProducts st.collection = []
    · have hempty : (handleRender oracle ids st).2 = [] := by
        simp [handleRender, stagingRun, hconf, hmode, hsel]
      rw [hempty] at hr
      simp at hr
    · rw [handleRender_staging_unfold oracle ids st hconf hmode hsel] at hr
      exact stageLoop_none_master oracle _ _ _ h0 _ 0 _ r hr
  refine ⟨hmn, ?_⟩
  rw [hmn]
  rfl

/-- C4 (amended): when a remote call fails, the orchestrator halts the run
and surfaces an error message, but the failing item's render status is left
at `processing` — the `error` render status is never assigned (the claimed
`processing --(failure)--> error` transition does not exist in the code).
Stated for both pipeline shapes as the exact one-step behaviour of the loops
on a failing call. -/
theorem failure_leaves_processing (oracle : Nat → Except JsError (Option String))
    (j : Nat) (img : ProductImage) (rest : List ProductImage) (st : AppState)
    (e : JsError)
    (sel : List ProductImage) (params : StagingParameters) (ref : Option String)
    (scene : StagedScene) (srest : List StagedScene) (i : Nat)
    (master : Option String) (st' : AppState)
    (hj : oracle j = .error e)
    (hi : oracle i = .error e) :
    renderLoop oracle j (img :: rest) st
      = { updateImageStatus st img.id .processing none with
          errorMessage := some (classifyError e) }
    ∧ (∀ p ∈ (renderLoop oracle j (img :: rest) st).collection.images,
        p.id = img.id → p.renderStatus = .processing)
    ∧ stageLoop oracle sel params ref (scene :: srest) i master st'
        = ({ updateSceneStatus st' scene.id .processing none with
             errorMessage := some (classifyError e) },
           [{ products := sel, params := params, angle := scene.angle,
              referenceImage := ref, masterShotUrl := master }])
    ∧ (∀ s ∈ (stageLoop oracle sel params ref (scene :: srest) i master st').1.collection.stagedScenes,
        s.id = scene.id → s.status = .processing) := by
  have h1 : renderLoop oracle j (img :: rest) st
      = { updateImageStatus st img.id .processing none with
          errorMessage := some (classifyError e) } := by
    simp [renderLoop, hj]
  have h3 := stageLoop_step_err oracle sel params ref scene srest i master st' e hi
  refine ⟨h1, ?_, h3, ?_⟩
  · intro p hp hpid
    rw [h1] at hp
    simp only [updateImageStatus] at hp
    obtain ⟨q, hq, rfl⟩ := List.mem_map.mp hp
    by_cases h : q.id = img.id
    · simp [h, applyImageUpdate]
    · rw [if_neg h] at hpid ⊢
      exact absurd hpid h
  · intro s hs hsid
    rw [h3] at hs
    simp only [updateSceneStatus] at hs
    obtain ⟨q, hq, rfl⟩ := List.mem_map.mp hs
    by_cases h : q.id = scene.id
    · simp [h, applySceneUpdate]
    · rw [if_neg h] at hsid ⊢
      exact absurd hsid h

/-- C7: a call that resolves successfully but carries no image payload is a
no-op for the work item: in both loops the item is marked `processing` before
the call and then left exactly as the processing-marking left it (status
`processing`, stored output unchanged), no error is recorded, and the run
continues with the next item.  For the product loop, when no later item
shares the id, the item's final state is its prior state with status
`processing`. -/
theorem empty_response_no_advance (oracle : Nat → Except JsError (Option String))
    (j : Nat) (img : ProductImage) (rest : List ProductImage) (st : AppState)
    (sel : List ProductImage) (params : StagingParameters) (ref : Option String)
    (scene : StagedScene) (srest : List StagedScene) (i : Nat)
    (master : Option String) (st' : AppState)
    (hj : oracle j = .ok none)
    (hi : oracle i = .ok none)
    (hfresh : ∀ it ∈ rest, it.id ≠ img.id) :
    renderLoop oracle j (img :: rest) st
      = renderLoop oracle (j + 1) rest (updateImageStatus st img.id .processing none)
    ∧ imagesWithId (renderLoop oracle j (img :: rest) st) img.id
        = (imagesWithId st img.id).map (fun p => { p with renderStatus := .processing })
    ∧ stageLoop oracle sel params ref (scene :: srest) i master st'
        = ((stageLoop oracle sel params ref srest (i + 1) master
              (updateSceneStatus st' scene.id .processing none)).1,
           { products := sel, params := params, angle := scene.angle,
             referenceImage := ref, masterShotUrl := master }
             :: (stageLoop oracle sel params ref srest (i + 1) master
                  (updateSceneStatus st' scene.id .processing none)).2) := by
  have h1 : renderLoop oracle j (img :: rest) st
      = renderLoop oracle (j + 1) rest (updateImageStatus st img.id .processing none) := by
    simp [renderLoop, hj, strTruthy]
  refine ⟨h1, ?_, ?_⟩
  · rw [h1, renderLoop_untouched oracle rest (j + 1) _ img.id hfresh,
      imagesWithId_update_self]
    rfl
  · have := stageLoop_step_ok oracle sel params ref scene srest i master st' none hi
    rw [this]
    rfl

/-- C6: a staging run with zero selected-and-confirmed products aborts at
once with the user-facing selection message, issues no remote request, and
leaves the store — in particular the scene-item list — unchanged. -/
theorem staging_aborts_without_selection (oracle : Nat → Except JsError (Option String))
    (ids : Nat → String) (st : AppState)
    (hconf : st.collection.isConfirmed = true)
    (hmode : st.collection.mode = Mode.Staging)
    (hsel : selectedProducts st.collection = []) :
    (handleRender oracle ids st).1.collection = st.collection
    ∧ (handleRender oracle ids st).1.errorMessage = some SELECT_PRODUCT_MSG
    ∧ (handleRender oracle ids st).2 = [] := by
  have h : handleRender oracle ids st
      = ({ collection := st.collection, errorMessage := some SELECT_PRODUCT_MSG }, []) := by
    simp [handleRender, stagingRun, hconf, hmode, hsel]
  rw [h]
  exact ⟨rfl, rfl, rfl⟩

/-! ## Concrete instances for counterexamples and witnesses -/

/-- A confirmed, selected product image, still pending. -/
def exProduct : ProductImage :=
  { id := "p1", originalUrl := "file1", viewType := .FRONT,
    inputStatus := .CONFIRMED, renderStatus := .pending, isSelected := some true }

/-- A confirmed individual-mode collection holding `exProduct`. -/
def exIndividualCollection : Collection :=
  { id := "c1", name := "New Project", mode := .Individual,
    parameters := INITIAL_PARAMS, stagingParameters := INITIAL_STAGING_PARAMS,
    images := [exProduct], stagedScenes := [], isConfirmed := true }

def exIndState : AppState := { collection := exIndividualCollection }

/-- A confirmed staging-mode collection holding `exProduct`, requesting the
Scenario C angles `[TOP_DOWN, WIDE, CLOSEUP]`. -/
def exStagingCollection : Collection :=
  { id := "c2", name := "New Project", mode := .Staging,
    parameters := INITIAL_PARAMS,
    stagingParameters := { INITIAL_PARAMS with
      layoutDensity := .Balanced, arrangementStyle := .FocalPoint,
      viewpoints := [.TOP_DOWN, .WIDE, .CLOSEUP] },
    images := [exProduct], stagedScenes := [], isConfirmed := true }

def exStagingState : AppState := { collection := exStagingCollection }

/-- A staging-mode collection whose only product is confirmed but never
selected. -/
def exStagingNoSelection : Collection :=
  { id := "c3", name := "New Project", mode := .Staging,
    parameters := INITIAL_PARAMS, stagingParameters := INITIAL_STAGING_PARAMS,
    images := [{ id := "p1", originalUrl := "file1", viewType := .FRONT,
                 inputStatus := .CONFIRMED, renderStatus := .pending }],
    stagedScenes := [], isConfirmed := true }

def exScene : StagedScene :=
  { id := "s0", productIds := ["p1"], angle := .WIDE, status := .pending }

def netError : JsError := { status := none, message := "network failure" }

/-- A remote call that always throws a generic error. -/
def failingOracle : Nat → Except JsError (Option String) := fun _ => .error netError

/-- A remote call that always resolves successfully with no image payload. -/
def emptyOracle : Nat → Except JsError (Option String) := fun _ => .ok none

def masterUrl : String := "data:image/jpeg;base64,master"

/-- A remote call that always resolves with an image. -/
def masterOkOracle : Nat → Except JsError (Option String) := fun _ => .ok (some masterUrl)

/-- The deterministic stand-in for the random scene-id generator. -/
def sceneIds : Nat → String := fun n => "scene" ++ toString n

/-- C4 counterexample: a failing remote call in an individual run leaves the
item's render status at `processing` — not `error` as the claimed state
machine requires — while the error surfaces only as the run's message. -/
theorem failure_not_marked_error_cex :
    ((handleRender failingOracle sceneIds exIndState).1.collection.images.map
        (fun p => p.renderStatus)) = [RenderStatus.processing]
    ∧ (handleRender failingOracle sceneIds exIndState).1.errorMessage
        = some (classifyError netError)
    ∧ RenderStatus.processing ≠ RenderStatus.error :=
  ⟨rfl, rfl, by decide⟩

/-- Witness for the amended C4 at a concrete failing run. -/
theorem failure_leaves_processing_witness :
    renderLoop failingOracle 0 [exProduct] exIndState
      = { updateImageStatus exIndState exProduct.id .processing none with
          errorMessage := some (classifyError netError) } :=
  (failure_leaves_processing failingOracle 0 exProduct [] exIndState netError
    [] INITIAL_STAGING_PARAMS none exScene [] 0 none exIndState rfl rfl).1

/-- Witness for C6: the unselected staging collection aborts with the
selection message and issues no request. -/
theorem staging_aborts_without_selection_witness :
    (handleRender emptyOracle sceneIds { collection := exStagingNoSelection }).1.errorMessage
        = some SELECT_PRODUCT_MSG
    ∧ (handleRender emptyOracle sceneIds { collection := exStagingNoSelection }).2 = [] :=
  ⟨(staging_aborts_without_selection emptyOracle sceneIds
      { collection := exStagingNoSelection } rfl rfl rfl).2.1,
   (staging_aborts_without_selection emptyOracle sceneIds
      { collection := exStagingNoSelection } rfl rfl rfl).2.2⟩

/-- Witness for C7 at a concrete empty-payload run: the item ends exactly in
the `processing` state with its stored output untouched. -/
theorem empty_response_no_advance_witness :
    imagesWithId (renderLoop emptyOracle 0 [exProduct] exIndState) exProduct.id
      = [{ exProduct with renderStatus := .processing }] := by
  have h := (empty_response_no_advance emptyOracle 0 exProduct [] exIndState
    [] INITIAL_STAGING_PARAMS none exScene [] 0 none exIndState rfl rfl
    (by simp)).2.1
  rw [h]
  rfl

/-- Witness for C1 at a concrete staging run: the first issued request
carries no master shot. -/
theorem dependent_requests_reference_master_witness :
    ((handleRender masterOkOracle sceneIds exStagingState).2.head?).map
        (fun r => r.masterShotUrl) = some none := by
  obtain ⟨a0, rest, heq, -, -⟩ :=
    dependent_requests_reference_master (fun s _ => s) masterOkOracle sceneIds
      exStagingState masterUrl rfl rfl (by decide) (by decide) rfl (by decide)
  rw [heq]
  rfl

/-- Witness for C9 at a concrete staging run whose calls all succeed without
an image: every issued request is master-less. -/
theorem missing_master_image_keeps_establish_mode_witness :
    ((handleRender emptyOracle sceneIds exStagingState).2.map
        (fun r => r.masterShotUrl)) = [none, none, none] := by
  have h := missing_master_image_keeps_establish_mode (fun s _ => s)
    emptyOracle sceneIds exStagingState rfl rfl rfl
  rfl

end Cgi
